import Mathlib

/-!
Verification of the batch docx-to-pdf orchestrator (app/tasks.py,
app/routers/jobs.py, app/models.py) against its design specification.

The embedding translates the Python source into Lean:
  pure control flow becomes Lean functions; the external collaborators
  (zip extraction, the LibreOffice subprocess, the filesystem, the Celery
  chord barrier) enter as explicit inputs or as a small transition system
  modelled from their contracts; nullable columns become Option; a Python
  exception escaping a function becomes Except.error.
-/

namespace DocxPdf

/-- Job.status enum from app/models.py (class JobStatus). -/
inductive JobStatus
  | PENDING
  | IN_PROGRESS
  | COMPLETED
  | FAILED
deriving DecidableEq, Repr

/-- JobFile.status enum from app/models.py (class FileStatus). -/
inductive FileStatus
  | PENDING
  | COMPLETED
  | FAILED
deriving DecidableEq, Repr

/-- The Job row from app/models.py. The columns the modelled operations read
or write: status, finished_at (nullable DateTime, modelled as Option Nat),
zip_path (nullable String). The id and created_at columns are assigned at
intake and never mutated or branched on by the orchestrator, so they are
carried outside the record (as the jobIdStr argument) where needed. -/
structure Job where
  status : JobStatus
  finished_at : Option Nat
  zip_path : Option String
deriving DecidableEq, Repr

/-- The JobFile row from app/models.py: filename, status, error_message
(nullable). The surrogate id and the job_id back-reference are identity
columns never branched on by the modelled operations. -/
structure JobFile where
  filename : String
  status : FileStatus
  error_message : Option String
deriving DecidableEq, Repr

/-- FileStatus.value of the Python str-enum: the string convert_file_task
returns into the chord result list. -/
def fileStatusValue : FileStatus → String
  | .PENDING => "PENDING"
  | .COMPLETED => "COMPLETED"
  | .FAILED => "FAILED"

/-- STORAGE_PATH default from app/tasks.py and app/routers/jobs.py
(os.getenv default "./storage"). -/
def STORAGE_PATH : String := "./storage"

/-- Outcome of zipfile extraction in process_incoming_job: either the list
of entry names found in the input directory (os.listdir), or an exception
from ZipFile/extractall (corrupt archive, I/O error). -/
inductive ExtractResult
  | ok (entries : List String)
  | extractError
deriving DecidableEq, Repr

/-- Python str.endswith, as a structurally recursive suffix test on the
character list (kernel-executable, unlike the opaque core primitive). -/
def pyEndsWith (s post : String) : Bool :=
  post.data.isSuffixOf s.data

/-- Python str.startswith, as a structurally recursive test on the
character list. -/
def pyStartsWith (s pre : String) : Bool :=
  pre.data.isPrefixOf s.data

/-- Python str.lower, characterwise (the filenames compared against
".docx" and the tilde-dollar marker are ASCII, where Char.toLower agrees
with Python). -/
def pyLower (s : String) : String :=
  String.mk (s.data.map Char.toLower)

/-- The classification test of process_incoming_job (tasks.py line 44-46):
f.lower().endswith(".docx") and not f.startswith a tilde-dollar lock marker. -/
def isValidDocx (f : String) : Bool :=
  pyEndsWith (pyLower f) ".docx" && !(pyStartsWith f "~$")

/-- What the decomposition step leaves behind: the mutated Job row, the
JobFile rows inserted, the filenames whose conversion tasks were put in the
chord header, and whether a chord (dispatch + barrier) was launched. -/
structure DecomposeOutcome where
  job : Job
  files : List JobFile
  dispatched : List String
  chordDispatched : Bool
deriving DecidableEq, Repr

/-- process_incoming_job from app/tasks.py (lines 19-80), for an existing
Job row. Faithful points: JobFile rows are created ONLY for the filenames
passing isValidDocx (the loop at line 57 iterates over docx_files); the
empty-docx_files branch and the exception branch set status = FAILED and
commit without touching finished_at; the success branch sets
status = IN_PROGRESS and launches one chord whose header has one
convert_file_task per valid file and whose callback is archive_job_task. -/
def process_incoming_job (job : Job) (extraction : ExtractResult) : DecomposeOutcome :=
  match extraction with
  | .extractError =>
      { job := { job with status := .FAILED }
        files := []
        dispatched := []
        chordDispatched := false }
  | .ok entries =>
      let docx_files := entries.filter isValidDocx
      if docx_files.isEmpty then
        { job := { job with status := .FAILED }
          files := []
          dispatched := []
          chordDispatched := false }
      else
        { job := { job with status := .IN_PROGRESS }
          files := docx_files.map (fun f => { filename := f, status := .PENDING, error_message := none })
          dispatched := docx_files
          chordDispatched := true }

/-- Contract of the external converter invocation (subprocess.run with
timeout=120 in convert_file_task): the process returned with an exit code,
or subprocess.TimeoutExpired was raised, or some other exception was raised
while launching (carried as its str(e)). -/
inductive ConvOutcome
  | exited (returncode : Int)
  | timeout
  | error (msg : String)
deriving DecidableEq, Repr

/-- What one invocation of convert_file_task leaves behind: the mutated
JobFile row, whether subprocess.run was actually invoked, and the string
returned into the chord result list (final_status at line 146). -/
structure ConvertResult where
  file : JobFile
  ranConverter : Bool
  returnValue : String
deriving DecidableEq, Repr

/-- convert_file_task from app/tasks.py (lines 84-152), for an existing
JobFile row. Faithful points: there is no guard on the current status of
the row — the subprocess is launched unconditionally; returncode 0 gives
COMPLETED; a non-zero returncode gives FAILED with error_message
"LibreOffice conversion failed" (line 136); TimeoutExpired gives FAILED
with "Conversion timed out"; any other exception gives FAILED with str(e);
the return value is the status value string. -/
def convert_file_task (job_file : JobFile) (outcome : ConvOutcome) : ConvertResult :=
  let f : JobFile :=
    match outcome with
    | .exited rc =>
        if rc = 0 then { job_file with status := .COMPLETED }
        else { job_file with status := .FAILED, error_message := some "LibreOffice conversion failed" }
    | .timeout => { job_file with status := .FAILED, error_message := some "Conversion timed out" }
    | .error m => { job_file with status := .FAILED, error_message := some m }
  { file := f, ranConverter := true, returnValue := fileStatusValue f.status }

/-- The terminal status convert_file_task records for a given converter
outcome (it depends only on the outcome, never on the prior row). -/
def outcomeStatus : ConvOutcome → FileStatus
  | .exited rc => if rc = 0 then .COMPLETED else .FAILED
  | .timeout => .FAILED
  | .error _ => .FAILED

/-- A Python value handed to os.path.join: either a str, or a uuid.UUID
object (archive_job_task converts its job_id argument back to uuid.UUID at
line 158 and then passes that object to os.path.join at line 161). -/
inductive PathArg
  | str (s : String)
  | uuidObj (u : String)
deriving DecidableEq, Repr

/-- os.path.join on (str, arg): joins strings; a uuid.UUID argument is not
str, bytes or os.PathLike, so CPython raises TypeError. -/
def ospath_join (a : String) (b : PathArg) : Except String String :=
  match b with
  | .str s => .ok (a ++ "/" ++ s)
  | .uuidObj _ =>
      .error "TypeError: join() argument must be str, bytes, or os.PathLike object, not UUID"

/-- The aggregation body of archive_job_task (tasks.py lines 169-200): the
logic of the try block and its except handler, taking the computed paths
for granted. Inputs: the Job row; results = the list of strings returned by
the chord header tasks; outputFiles = the filenames os.walk finds under the
output directory; buildOk = false models an exception raised while building
the zip (in which case none of the assignments at lines 183-192 have
happened and the except handler only sets status = FAILED); now = the clock
value of datetime.now. Faithful points: files_to_zip is true iff some
output filename ends in ".pdf"; status is set to COMPLETED and finished_at
to now unconditionally on the non-exception path; zip_path is set iff
files_to_zip; status is downgraded to FAILED only when no result string
equals "COMPLETED" (the str-enum comparison at line 191). -/
def archive_job_core (job : Job) (results : List String) (outputFiles : List String)
    (buildOk : Bool) (now : Nat) (jobIdStr : String) : Job :=
  if buildOk then
    let files_to_zip := outputFiles.any (fun f => pyEndsWith f ".pdf")
    let j1 : Job := { job with status := .COMPLETED, finished_at := some now }
    if files_to_zip then
      { j1 with zip_path := some (jobIdStr ++ "/result.zip") }
    else
      let j2 : Job := { j1 with zip_path := none }
      if results.any (fun r => r == "COMPLETED") then j2
      else { j2 with status := .FAILED }
  else
    { job with status := .FAILED }

/-- archive_job_task from app/tasks.py (lines 155-204). Faithful points:
after looking up the Job row it converts job_id to a uuid.UUID object and
immediately computes job_dir = os.path.join(STORAGE_PATH, job_id) at line
161 — with the UUID object, OUTSIDE the try block — so the TypeError
propagates out of the task before any row is mutated or committed (compare
convert_file_task line 97, which wraps the id in str). Were the join to
succeed, a missing row would raise AttributeError on the first attribute
assignment, and otherwise the try-block logic of archive_job_core runs and
the row is committed. -/
def archive_job_task (jobRow : Option Job) (results : List String) (jobIdStr : String)
    (outputFiles : List String) (buildOk : Bool) (now : Nat) : Except String Job :=
  match ospath_join STORAGE_PATH (PathArg.uuidObj jobIdStr) with
  | .error e => .error e
  | .ok _job_dir =>
      match jobRow with
      | none => .error "AttributeError: NoneType object has no attribute status"
      | some job => .ok (archive_job_core job results outputFiles buildOk now jobIdStr)

/-- Per-job state of the completion barrier. The barrier itself is the
Celery chord launched at tasks.py line 73 (an external collaborator, used
but not implemented in this repository); it is modelled from its contract:
once all header tasks of a chord have completed, the callback is invoked
exactly once. done is the set of header units whose terminal outcome has
been counted; fired records whether the callback has been triggered; fires
counts the callback invocations (to state exactly-once). -/
structure ChordState (n : Nat) where
  done : Finset (Fin n)
  fired : Bool
  fires : Nat
deriving DecidableEq

/-- Initial barrier state for a chord with n header tasks: nothing counted,
callback not yet triggered. -/
def chordInit (n : Nat) : ChordState n :=
  { done := ∅, fired := false, fires := 0 }

/-- One barrier notification: header task i has reached its terminal
outcome (convert_file_task always returns a terminal status string). The
unit is added to the counted set; if that makes the count complete and the
callback has not fired yet, the callback (archive_job_task) is invoked and
fired is set, atomically. -/
def notifyStep {n : Nat} (s : ChordState n) (i : Fin n) : ChordState n :=
  if (insert i s.done).card = n ∧ s.fired = false then
    { done := insert i s.done, fired := true, fires := s.fires + 1 }
  else
    { done := insert i s.done, fired := s.fired, fires := s.fires }

/-- Run the barrier over a completion trace: an arbitrary interleaving
(any order, duplicates allowed) of unit-completion notifications for a
chord with n header tasks. -/
def runTrace {n : Nat} (tr : List (Fin n)) : ChordState n :=
  tr.foldl notifyStep (chordInit n)

/-- The barrier invariant: the callback has fired exactly when every unit
has been counted, and the number of callback invocations is 1 after firing
and 0 before. -/
def chordInv {n : Nat} (s : ChordState n) : Prop :=
  (s.fired = true ↔ s.done = Finset.univ) ∧
  s.fires = (if s.fired = true then 1 else 0)

/-- Result of a request to GET /api/v1/jobs/id/download (jobs.py,
download_job_result): a FileResponse, an HTTPException rendered with its
status code and detail, or an exception escaping the handler (rendered by
the framework as a bare 500 Internal Server Error with no detail). -/
inductive DownloadResult
  | fileResponse (path : String) (filename : String)
  | httpError (code : Nat) (detail : String)
  | uncaught (msg : String)
deriving DecidableEq, Repr

/-- download_job_result from app/routers/jobs.py (lines 84-102). Faithful
points: a missing row and a non-COMPLETED row are collapsed by the single
test at line 88 into the same 400 "Job not ready or failed"; otherwise
full_path = os.path.join(STORAGE_PATH, job.zip_path), which raises
TypeError when zip_path is NULL (None is not a str); a missing file gives
HTTPException 500 "File missing from storage"; otherwise the zip is served
as converted_id.zip. fileExists stands for os.path.exists. -/
def download_job_result (jobRow : Option Job) (jobIdStr : String)
    (fileExists : String → Bool) : DownloadResult :=
  match jobRow with
  | none => .httpError 400 "Job not ready or failed"
  | some job =>
      if job.status ≠ JobStatus.COMPLETED then
        .httpError 400 "Job not ready or failed"
      else
        match job.zip_path with
        | none =>
            .uncaught "TypeError: join() argument must be str, bytes, or os.PathLike object, not NoneType"
        | some zp =>
            let full_path := STORAGE_PATH ++ "/" ++ zp
            if fileExists full_path then
              .fileResponse full_path ("converted_" ++ jobIdStr ++ ".zip")
            else
              .httpError 500 "File missing from storage"

/-- Result of a request to GET /api/v1/jobs/id (jobs.py, get_job_status):
either the 200 snapshot (status and finished_at shown; the created_at and
files echo carry no orchestrator state and are elided) or an HTTPException
with code and detail. -/
inductive StatusResult
  | ok (status : JobStatus) (finished_at : Option Nat)
  | httpError (code : Nat) (detail : String)
deriving DecidableEq, Repr

/-- get_job_status from app/routers/jobs.py (lines 57-79): a missing row
gives HTTPException 404 "Job not found", an existing row gives the
snapshot. -/
def get_job_status (jobRow : Option Job) : StatusResult :=
  match jobRow with
  | none => .httpError 404 "Job not found"
  | some job => .ok job.status job.finished_at

/-! Helper lemmas for the completion-barrier transition system. -/

theorem notifyStep_inv {n : Nat} (s : ChordState n) (i : Fin n)
    (h : chordInv s) : chordInv (notifyStep s i) := by
  obtain ⟨h1, h2⟩ := h
  unfold chordInv notifyStep
  by_cases hc : ((insert i s.done).card = n ∧ s.fired = false)
  · rw [if_pos hc]
    obtain ⟨hcard, hfired⟩ := hc
    have hduniv : insert i s.done = Finset.univ := by
      apply Finset.eq_univ_of_card
      rw [hcard, Fintype.card_fin]
    have hfires : s.fires = 0 := by rw [h2, hfired]; rfl
    simp [hduniv, hfires]
  · rw [if_neg hc]
    rcases Bool.eq_false_or_eq_true s.fired with hf | hf
    · have hduniv : s.done = Finset.univ := h1.mp hf
      have huniv : insert i s.done = Finset.univ := by
        rw [hduniv]
        exact Finset.insert_eq_self.mpr (Finset.mem_univ i)
      have hfires : s.fires = 1 := by rw [h2, hf]; simp
      simp [hf, huniv, hfires]
    · have hcard : (insert i s.done).card ≠ n := by
        intro hcn
        exact hc ⟨hcn, hf⟩
      have hne : insert i s.done ≠ Finset.univ := by
        intro he
        apply hcard
        rw [he, Finset.card_univ, Fintype.card_fin]
      have hfires : s.fires = 0 := by rw [h2, hf]; simp
      simp [hf, hne, hfires]

theorem chordInit_inv {n : Nat} (hn : 0 < n) : chordInv (chordInit n) := by
  constructor
  · show (false = true ↔ (∅ : Finset (Fin n)) = Finset.univ)
    constructor
    · intro h
      exact absurd h (by simp)
    · intro h
      exfalso
      have hcard := congrArg Finset.card h
      rw [Finset.card_empty, Finset.card_univ, Fintype.card_fin] at hcard
      omega
  · rfl

theorem runTrace_inv_from {n : Nat} (tr : List (Fin n)) (s : ChordState n)
    (h : chordInv s) : chordInv (tr.foldl notifyStep s) := by
  induction tr generalizing s with
  | nil => exact h
  | cons a t ih => exact ih (notifyStep s a) (notifyStep_inv s a h)

theorem notifyStep_done {n : Nat} (s : ChordState n) (i : Fin n) :
    (notifyStep s i).done = insert i s.done := by
  unfold notifyStep
  split <;> rfl

theorem runTrace_done_from {n : Nat} (tr : List (Fin n)) (s : ChordState n) :
    (tr.foldl notifyStep s).done = s.done ∪ tr.toFinset := by
  induction tr generalizing s with
  | nil => simp
  | cons a t ih =>
      rw [List.foldl_cons, ih, notifyStep_done, List.toFinset_cons]
      ext x
      simp only [Finset.mem_union, Finset.mem_insert, List.mem_toFinset]
      tauto

/-! Claim theorems. -/

/-- C1: for every Job whose chord dispatches N units (N at least 1), the
barrier invokes the callback archive_job_task exactly once, and only once
every dispatched unit has reached and reported a terminal status: over any
notification trace, the number of callback invocations is at most 1, it is
exactly 1 precisely when the counted set covers all N units, and the
counted set is exactly the set of units that have reported. Since this
holds for every trace, it holds for every prefix of a trace, so the
callback can never be observed fired before all N units are terminal. -/
theorem C1_barrier_fires_exactly_once (n : Nat) (hn : 0 < n) (tr : List (Fin n)) :
    (runTrace tr).fires ≤ 1 ∧
    ((runTrace tr).fires = 1 ↔ (runTrace tr).done = Finset.univ) ∧
    (runTrace tr).done = tr.toFinset := by
  have h : chordInv (runTrace tr) := runTrace_inv_from tr (chordInit n) (chordInit_inv hn)
  obtain ⟨h1, h2⟩ := h
  refine ⟨?_, ?_, ?_⟩
  · rw [h2]
    split <;> omega
  · rw [h2]
    rcases Bool.eq_false_or_eq_true (runTrace tr).fired with hf | hf
    · simp [hf, h1.mp hf]
    · have hne : (runTrace tr).done ≠ Finset.univ := by
        intro he
        rw [h1.mpr he] at hf
        cases hf
      simp [hf, hne]
  · have := runTrace_done_from tr (chordInit n)
    simpa [chordInit] using this

/-- Witness for C1 at a concrete chord of 2 units completing in order. -/
theorem C1_witness :
    0 < 2 ∧
    ((runTrace ([0, 1] : List (Fin 2))).fires ≤ 1 ∧
     ((runTrace ([0, 1] : List (Fin 2))).fires = 1 ↔
        (runTrace ([0, 1] : List (Fin 2))).done = Finset.univ) ∧
     (runTrace ([0, 1] : List (Fin 2))).done = ([0, 1] : List (Fin 2)).toFinset) :=
  ⟨by decide, C1_barrier_fires_exactly_once 2 (by decide) [0, 1]⟩

/-- C2: the claim says decomposition creates exactly one Unit record per
extracted entry, valid or invalid, so the archive with entries a.docx,
b.docx, c.txt would yield 3 Unit records with c.txt FAILED and carrying the
fixed error message. The code disagrees with the claim and with the
repository test suite (test_worker.py expects a FAILED row for the invalid
entry): process_incoming_job iterates only over docx_files, so only the 2
valid entries get rows, none carries the fixed message, and the invalid
entry leaves no trace in the store. -/
theorem C2_units_only_for_valid_entries :
    (process_incoming_job ⟨JobStatus.PENDING, none, none⟩
        (.ok ["a.docx", "b.docx", "c.txt"])).files.length = 2 ∧
    (process_incoming_job ⟨JobStatus.PENDING, none, none⟩
        (.ok ["a.docx", "b.docx", "c.txt"])).files.map JobFile.filename = ["a.docx", "b.docx"] ∧
    (∀ f ∈ (process_incoming_job ⟨JobStatus.PENDING, none, none⟩
        (.ok ["a.docx", "b.docx", "c.txt"])).files,
      f.status = FileStatus.PENDING ∧ f.error_message = none) := by
  decide

/-- C3: the claim says an all-invalid (or empty, or corrupt) archive moves
the Job to FAILED with finished_at non-null and no dispatch. On the
archive with entries x.png and y.txt the code does set FAILED and does not
dispatch, but leaves finished_at null (the early-failure branch of
process_incoming_job commits without touching finished_at), contradicting
the repository test test_process_job_all_invalid_files, which asserts
finished_at is not None. The extraction-failure branch behaves the same. -/
theorem C3_early_fail_leaves_finished_at_null :
    (process_incoming_job ⟨JobStatus.PENDING, none, none⟩ (.ok ["x.png", "y.txt"])).job =
      { status := JobStatus.FAILED, finished_at := none, zip_path := none } ∧
    (process_incoming_job ⟨JobStatus.PENDING, none, none⟩
        (.ok ["x.png", "y.txt"])).chordDispatched = false ∧
    (process_incoming_job ⟨JobStatus.PENDING, none, none⟩ .extractError).job.finished_at = none := by
  decide

/-- C4: the claim maps a non-zero converter exit to error_message
"Invalid file format or corrupted document". The code instead records
"LibreOffice conversion failed" (and the repository test expects yet
another wording), while the timeout, launch-error and success mappings are
as claimed. -/
theorem C4_exit_code_message :
    (convert_file_task ⟨"corrupt.docx", FileStatus.PENDING, none⟩
        (.exited 1)).file.error_message = some "LibreOffice conversion failed" ∧
    (some "LibreOffice conversion failed" : Option String) ≠
      some "Invalid file format or corrupted document" ∧
    (convert_file_task ⟨"corrupt.docx", FileStatus.PENDING, none⟩
        (.exited 1)).file.status = FileStatus.FAILED ∧
    (convert_file_task ⟨"a.docx", FileStatus.PENDING, none⟩
        .timeout).file.error_message = some "Conversion timed out" ∧
    (convert_file_task ⟨"a.docx", FileStatus.PENDING, none⟩
        (.error "boom")).file.error_message = some "boom" ∧
    (convert_file_task ⟨"a.docx", FileStatus.PENDING, none⟩
        (.exited 0)).file.status = FileStatus.COMPLETED := by
  decide

/-- C5 counterexample: the claimed equivalence (result_location non-null
iff status COMPLETED and at least one Unit COMPLETED) fails on the
aggregation body at the input where one unit reported COMPLETED but no pdf
artifact exists in the output directory: the body leaves the Job COMPLETED
with zip_path null. -/
theorem C5_counterexample :
    ¬ (((archive_job_core ⟨JobStatus.IN_PROGRESS, none, none⟩
            ["COMPLETED"] [] true 7 "j").zip_path ≠ none) ↔
        ((archive_job_core ⟨JobStatus.IN_PROGRESS, none, none⟩
            ["COMPLETED"] [] true 7 "j").status = JobStatus.COMPLETED ∧
          "COMPLETED" ∈ ["COMPLETED"])) := by
  decide

/-- C5 amended: on the non-exception path of the aggregation body,
result_location is non-null iff at least one pdf artifact exists in the
output directory; a non-null result_location does imply status COMPLETED;
and the status is FAILED exactly when no pdf artifact exists and no unit
reported COMPLETED — so a Job one of whose units reported COMPLETED while
no artifact exists ends COMPLETED with a null result_location. -/
theorem C5_amended_result_location (job : Job) (results outs : List String)
    (now : Nat) (idS : String) :
    ((archive_job_core job results outs true now idS).zip_path ≠ none ↔
        outs.any (fun f => pyEndsWith f ".pdf") = true) ∧
    ((archive_job_core job results outs true now idS).zip_path ≠ none →
        (archive_job_core job results outs true now idS).status = JobStatus.COMPLETED) ∧
    ((archive_job_core job results outs true now idS).status = JobStatus.FAILED ↔
        (outs.any (fun f => pyEndsWith f ".pdf") = false ∧
          results.any (fun r => r == "COMPLETED") = false)) := by
  unfold archive_job_core
  rcases Bool.eq_false_or_eq_true (outs.any (fun f => pyEndsWith f ".pdf")) with h1 | h1
  · simp [h1]
  · rcases Bool.eq_false_or_eq_true (results.any (fun r => r == "COMPLETED")) with h2 | h2
    · simp [h1, h2]
    · simp [h1, h2]

/-- Witness for C5 amended at a concrete aggregation with one pdf
artifact present: result_location non-null forces status COMPLETED. -/
theorem C5_witness :
    (archive_job_core ⟨JobStatus.IN_PROGRESS, none, none⟩
        ["FAILED"] ["a.pdf"] true 3 "j").status = JobStatus.COMPLETED :=
  (C5_amended_result_location ⟨JobStatus.IN_PROGRESS, none, none⟩
      ["FAILED"] ["a.pdf"] 3 "j").2.1 (by decide)

/-- C6: the claim says every invocation of archive_job_task for an
existing Job terminates with the Job in a terminal status and finished_at
set exactly once, on every branch. The code cannot do this: at line 161 it
passes the uuid.UUID object to os.path.join, which raises TypeError before
the try block, so the task always aborts with no mutation committed and
the Job stays IN_PROGRESS with finished_at null (the sibling
convert_file_task wraps the id in str, and the task docstring says it
updates job status, so the claim reflects the intent and the code is a
slip). Moreover, even the aggregation body sets FAILED but never
finished_at on its archive-build-failure branch. -/
theorem C6_aggregator_crashes (jobRow : Option Job) (results : List String) (idS : String)
    (outs : List String) (buildOk : Bool) (now : Nat) (job : Job) :
    archive_job_task jobRow results idS outs buildOk now =
      .error "TypeError: join() argument must be str, bytes, or os.PathLike object, not UUID" ∧
    (archive_job_core job results outs false now idS).status = JobStatus.FAILED ∧
    (archive_job_core job results outs false now idS).finished_at = job.finished_at ∧
    (archive_job_core job results outs false now idS).zip_path = job.zip_path := by
  refine ⟨rfl, ?_, ?_, ?_⟩ <;> simp [archive_job_core]

/-- C7 counterexample: the claim says re-invoking convert_file_task for a
unit already carrying a terminal status is a no-op that does not re-run
the converter. At the concrete input of a COMPLETED unit re-delivered with
a failing converter outcome, the code re-runs the converter and overwrites
the stored status (even regressing COMPLETED to FAILED). -/
theorem C7_counterexample :
    ¬ ((convert_file_task ⟨"a.docx", FileStatus.COMPLETED, none⟩ (.exited 1)).file =
          ⟨"a.docx", FileStatus.COMPLETED, none⟩ ∧
        (convert_file_task ⟨"a.docx", FileStatus.COMPLETED, none⟩ (.exited 1)).ranConverter = false) := by
  decide

/-- C7 amended: convert_file_task has no idempotency guard at all: on
every invocation, whatever status the row already carries, it runs the
converter and overwrites the stored status with the status determined by
the new outcome alone, and returns that status string into the chord. -/
theorem C7_amended_no_idempotency_guard (job_file : JobFile) (outcome : ConvOutcome) :
    (convert_file_task job_file outcome).ranConverter = true ∧
    (convert_file_task job_file outcome).file.status = outcomeStatus outcome ∧
    (convert_file_task job_file outcome).returnValue = fileStatusValue (outcomeStatus outcome) := by
  cases outcome with
  | exited rc =>
      rcases eq_or_ne rc 0 with h | h <;> simp [convert_file_task, outcomeStatus, h]
  | timeout => simp [convert_file_task, outcomeStatus]
  | error m => simp [convert_file_task, outcomeStatus]

/-- C8: the claim says the status transitions are confined to
PENDING to IN_PROGRESS, PENDING to FAILED, IN_PROGRESS to COMPLETED and
IN_PROGRESS to FAILED, and finished_at is set exactly once, together with
a terminal status. The transition part holds of the modelled operations,
but the finished_at discipline does not: process_incoming_job never
touches finished_at on any branch, so a Job that terminates on the
decomposition path (for example the all-invalid archive x.png, y.txt,
whose repository test asserts finished_at is not None) reaches the
terminal status FAILED with finished_at never set. -/
theorem C8_finished_at_discipline :
    (∀ (job : Job) (e : ExtractResult),
        (process_incoming_job job e).job.finished_at = job.finished_at) ∧
    (process_incoming_job ⟨JobStatus.PENDING, none, none⟩
        (.ok ["x.png", "y.txt"])).job.status = JobStatus.FAILED ∧
    (process_incoming_job ⟨JobStatus.PENDING, none, none⟩
        (.ok ["x.png", "y.txt"])).job.finished_at = none := by
  refine ⟨?_, by decide, by decide⟩
  intro job e
  cases e with
  | extractError => rfl
  | ok entries =>
      unfold process_incoming_job
      dsimp only
      split <;> rfl

/-- C9 counterexample: the claim says a COMPLETED Job whose artifact is
absent from disk fails with the result-missing error. For a COMPLETED Job
row whose zip_path is null (a state the aggregation body itself produces,
see the C5 counterexample) the handler instead crashes: os.path.join
receives None and raises an uncaught TypeError, which the framework turns
into a bare 500 with neither the result-missing nor the not-ready detail. -/
theorem C9_counterexample :
    download_job_result (some ⟨JobStatus.COMPLETED, some 5, none⟩) "j" (fun _ => false) =
      .uncaught "TypeError: join() argument must be str, bytes, or os.PathLike object, not NoneType" ∧
    download_job_result (some ⟨JobStatus.COMPLETED, some 5, none⟩) "j" (fun _ => false) ≠
      .httpError 500 "File missing from storage" ∧
    download_job_result (some ⟨JobStatus.COMPLETED, some 5, none⟩) "j" (fun _ => false) ≠
      .httpError 400 "Job not ready or failed" := by
  refine ⟨rfl, by decide, by decide⟩

/-- C9 amended: the download handler serves a file iff the Job is
COMPLETED, zip_path is set and the artifact exists on disk; a
non-COMPLETED Job gets 400 "Job not ready or failed"; a COMPLETED Job with
zip_path set but the artifact absent gets 500 "File missing from storage";
and a COMPLETED Job with zip_path null crashes with an uncaught TypeError
instead of a clean error. -/
theorem C9_amended_download (job : Job) (idS : String) (fs : String → Bool) :
    ((∃ p f, download_job_result (some job) idS fs = .fileResponse p f) ↔
        (job.status = JobStatus.COMPLETED ∧
          ∃ zp, job.zip_path = some zp ∧ fs (STORAGE_PATH ++ "/" ++ zp) = true)) ∧
    (job.status ≠ JobStatus.COMPLETED →
        download_job_result (some job) idS fs = .httpError 400 "Job not ready or failed") ∧
    (∀ zp, job.status = JobStatus.COMPLETED → job.zip_path = some zp →
        fs (STORAGE_PATH ++ "/" ++ zp) = false →
        download_job_result (some job) idS fs = .httpError 500 "File missing from storage") ∧
    (job.status = JobStatus.COMPLETED → job.zip_path = none →
        download_job_result (some job) idS fs =
          .uncaught "TypeError: join() argument must be str, bytes, or os.PathLike object, not NoneType") := by
  unfold download_job_result
  by_cases hs : job.status = JobStatus.COMPLETED
  · cases hzp : job.zip_path with
    | none => simp [hs, hzp]
    | some zp =>
        rcases Bool.eq_false_or_eq_true (fs (STORAGE_PATH ++ "/" ++ zp)) with hf | hf
        · simp [hs, hzp, hf]
        · simp [hs, hzp, hf]
  · simp [hs]

/-- Witness for C9 amended at a concrete COMPLETED Job whose artifact is
absent: the handler answers 500 "File missing from storage". -/
theorem C9_witness :
    download_job_result (some ⟨JobStatus.COMPLETED, some 1, some "j/result.zip"⟩) "j"
        (fun _ => false) = .httpError 500 "File missing from storage" :=
  (C9_amended_download ⟨JobStatus.COMPLETED, some 1, some "j/result.zip"⟩ "j"
      (fun _ => false)).2.2.1 "j/result.zip" rfl rfl rfl

/-- C10: for a job id with no row in the store, the download handler
answers exactly the 400 "Job not ready or failed" it gives an existing
non-COMPLETED Job (the single test at jobs.py line 88 collapses both
cases), and never a 404, unlike get_job_status which answers 404
"Job not found" for the unknown id. -/
theorem C10_unknown_job_download_vs_status (idS : String) (fs : String → Bool) (job : Job) :
    download_job_result none idS fs = .httpError 400 "Job not ready or failed" ∧
    (job.status ≠ JobStatus.COMPLETED →
        download_job_result (some job) idS fs = download_job_result none idS fs) ∧
    (∀ d, download_job_result none idS fs ≠ .httpError 404 d) ∧
    get_job_status none = .httpError 404 "Job not found" := by
  refine ⟨rfl, ?_, ?_, rfl⟩
  · intro h
    simp [download_job_result, h]
  · intro d h
    simp [download_job_result] at h

/-- Witness for C10 at a concrete IN_PROGRESS Job: its download answer
coincides with the answer for an unknown id. -/
theorem C10_witness :
    download_job_result (some ⟨JobStatus.IN_PROGRESS, none, none⟩) "j" (fun _ => false) =
      download_job_result none "j" (fun _ => false) :=
  (C10_unknown_job_download_vs_status "j" (fun _ => false)
      ⟨JobStatus.IN_PROGRESS, none, none⟩).2.1 (by decide)

end DocxPdf
